import Mathlib

/-!
# Verification of the GDK convergence / agent-workflow core

This file is a shallow embedding, in Lean 4, of the parts of the GDK
repository (Rust) that the verified claims are about:

* `src/lib.rs` — `ThreadColor`, `ThreadColor::from_scores`,
  `ThreadColor::to_score`, the data records `ConvergenceMetrics`,
  `CommitNode`, `RevertPoint`;
* `src/threads.rs` — `ColorRules` (with its `Default`) and
  `ThreadManager::calculate_thread_color`;
* `src/convergence.rs` — `ConvergenceAnalyzer` (with its `Default`),
  `ConvergenceFactors`, `determine_convergence`,
  `calculate_quality_stability`, `predict_convergence_time`;
* `src/agent.rs` — the agent session state, the action log, and the
  session-mutating operations `execute_infinite_monkey_workflow`,
  `create_spiral_checkpoint`, `revert_to_last_checkpoint`,
  `validate_and_commit`, `suggest_next_action`;
* `src/errors.rs` — the error constructors actually reached by the
  operations above.

Rust `f64` values are modelled as exact rationals (`ℚ`): every arithmetic
operation appearing in the modelled code paths (sums, products by constant
weights, divisions by nonzero counts, comparisons) is exact, so the
rational model agrees with the floating-point program on the properties
stated here, and decimal literals such as `0.25` denote the same rational
the Rust literal denotes.  Rust `u32`/`usize` are modelled as `ℕ`; none of
the modelled paths can overflow them on the inputs quantified over.

The asynchronous external collaborators (the git backend behind the
`GitWorkflow` trait) are modelled as a deterministic oracle
(`WorkflowModel`) plus an explicit effect log (`WorkflowState`), and the
controller's `async` methods become pure state-passing functions.  The
`active_sessions` map is modelled by the single session of the acting
agent: every claim treated here presupposes that the agent's session
exists, and no modelled path touches another agent's session.
-/

/-! ## Quality thread model (`src/lib.rs`) -/

/-- `ThreadColor` from `src/lib.rs` (five-valued quality classification). -/
inductive ThreadColor where
  | Red
  | Orange
  | Yellow
  | LightGreen
  | Green
deriving DecidableEq, Repr

/-- `ThreadColor::from_scores` from `src/lib.rs`: classify the unweighted
mean of the four scores with breakpoints 0.9 / 0.7 / 0.5 / 0.3. -/
def ThreadColor.from_scores (lint type_check test_coverage functionality : ℚ) :
    ThreadColor :=
  let overall := (lint + type_check + test_coverage + functionality) / 4
  if overall ≥ 0.9 then .Green
  else if overall ≥ 0.7 then .LightGreen
  else if overall ≥ 0.5 then .Yellow
  else if overall ≥ 0.3 then .Orange
  else .Red

/-- `ThreadColor::to_score` from `src/lib.rs`: the fixed discrete score of
each color. -/
def ThreadColor.to_score : ThreadColor → ℚ
  | .Green => 1.0
  | .LightGreen => 0.8
  | .Yellow => 0.6
  | .Orange => 0.4
  | .Red => 0.2

/-! ## Thread manager color rules (`src/threads.rs`) -/

/-- `ColorRules` from `src/threads.rs`. -/
structure ColorRules where
  green_threshold : ℚ
  light_green_threshold : ℚ
  yellow_threshold : ℚ
  orange_threshold : ℚ
  weight_lint : ℚ
  weight_type_check : ℚ
  weight_test_coverage : ℚ
  weight_functionality : ℚ
deriving DecidableEq, Repr

/-- `impl Default for ColorRules` from `src/threads.rs`. -/
def ColorRules.default : ColorRules where
  green_threshold := 0.9
  light_green_threshold := 0.7
  yellow_threshold := 0.5
  orange_threshold := 0.3
  weight_lint := 0.25
  weight_type_check := 0.25
  weight_test_coverage := 0.25
  weight_functionality := 0.25

/-- `ThreadManager::calculate_thread_color` from `src/threads.rs`
(a method reading `self.color_rules`, embedded as a function of the
rules): weighted score against the configured thresholds. -/
def calculate_thread_color (rules : ColorRules)
    (lint type_check test_coverage functionality : ℚ) : ThreadColor :=
  let weighted_score := lint * rules.weight_lint
    + type_check * rules.weight_type_check
    + test_coverage * rules.weight_test_coverage
    + functionality * rules.weight_functionality
  if weighted_score ≥ rules.green_threshold then .Green
  else if weighted_score ≥ rules.light_green_threshold then .LightGreen
  else if weighted_score ≥ rules.yellow_threshold then .Yellow
  else if weighted_score ≥ rules.orange_threshold then .Orange
  else .Red

/-! ## Convergence analyzer (`src/convergence.rs`) -/

/-- `ConvergenceFactors` from `src/convergence.rs`. -/
structure ConvergenceFactors where
  quality_stability : ℚ
  thread_health_ratio : ℚ
  test_pass_consistency : ℚ
  build_success_rate : ℚ
  trend_improvement : ℚ
deriving DecidableEq, Repr

/-- `ConvergenceAnalyzer` configuration from `src/convergence.rs`. -/
structure ConvergenceAnalyzer where
  convergence_threshold : ℚ
  stability_window : ℕ
  quality_trend_window : ℕ
  min_green_threads_ratio : ℚ
  variance_threshold : ℚ
deriving DecidableEq, Repr

/-- `impl Default for ConvergenceAnalyzer` from `src/convergence.rs`. -/
def ConvergenceAnalyzer.default : ConvergenceAnalyzer where
  convergence_threshold := 0.8
  stability_window := 5
  quality_trend_window := 10
  min_green_threads_ratio := 0.7
  variance_threshold := 0.02

/-- `ConvergenceAnalyzer::determine_convergence` from `src/convergence.rs`:
weights `[0.3, 0.25, 0.2, 0.15, 0.1]` applied to the five factors give the
confidence score; the convergence flag is the three-way conjunction from
the source.  Returns `(is_converged, confidence_score)` as the Rust does. -/
def ConvergenceAnalyzer.determine_convergence (a : ConvergenceAnalyzer)
    (factors : ConvergenceFactors) : Bool × ℚ :=
  let confidence_score :=
    factors.quality_stability * 0.3
    + factors.thread_health_ratio * 0.25
    + factors.test_pass_consistency * 0.2
    + factors.build_success_rate * 0.15
    + factors.trend_improvement * 0.1
  let is_converged :=
    decide (confidence_score ≥ a.convergence_threshold)
    && decide (factors.quality_stability > 0.8)
    && decide (factors.thread_health_ratio ≥ a.min_green_threads_ratio)
  (is_converged, confidence_score)

/-- `ConvergenceMetrics` from `src/lib.rs` (the `quality_trend` vector is
carried but unused by the modelled paths). -/
structure ConvergenceMetrics where
  attempts : ℕ
  successful_builds : ℕ
  test_pass_rate : ℚ
  quality_trend : List ℚ
  is_converged : Bool
deriving DecidableEq, Repr

/-- `CommitNode` from `src/lib.rs`, restricted to the fields the modelled
operations read (`hash`, `message`, `health_score`,
`convergence_metrics`); the diff/thread payloads are external data never
inspected by the verified paths. -/
structure CommitNode where
  hash : String
  message : String
  health_score : ℚ
  convergence_metrics : ConvergenceMetrics
deriving DecidableEq, Repr

/-- `ConvergenceAnalyzer::calculate_quality_stability` from
`src/convergence.rs`: over the last `stability_window` commits (newest
first), require at least 3, compute mean and population variance of the
health scores, and apply the hard stability gate. -/
def ConvergenceAnalyzer.calculate_quality_stability (a : ConvergenceAnalyzer)
    (commit_history : List CommitNode) : ℚ :=
  let recent_commits := commit_history.reverse.take a.stability_window
  if recent_commits.length < 3 then 0
  else
    let quality_scores := recent_commits.map (·.health_score)
    let mean := quality_scores.sum / (quality_scores.length : ℚ)
    let variance :=
      (quality_scores.map (fun score => (score - mean) ^ 2)).sum
        / (quality_scores.length : ℚ)
    if variance ≤ a.variance_threshold ∧ mean ≥ a.convergence_threshold then
      1 - min (variance / a.variance_threshold) 1
    else 0

/-- `ConvergenceAnalyzer::predict_convergence_time` from
`src/convergence.rs`: improvement rate over the last (up to) 10 health
scores, reversed so index 0 is newest; `ceil` of the remaining improvement
divided by the rate, capped at 100 iterations. -/
def ConvergenceAnalyzer.predict_convergence_time (a : ConvergenceAnalyzer)
    (commit_history : List CommitNode) : Option ℕ :=
  if commit_history.length < 3 then none
  else
    let recent_scores := (commit_history.reverse.take 10).map (·.health_score)
    if recent_scores.length < 3 then none
    else
      let current_score := recent_scores.headI
      let oldest_score := recent_scores.getLastD 0
      let improvement_rate :=
        (current_score - oldest_score) / (recent_scores.length : ℚ)
      if improvement_rate ≤ 0 then none
      else
        let remaining_improvement := a.convergence_threshold - current_score
        if remaining_improvement ≤ 0 then some 0
        else
          let predicted_iterations :=
            (⌈remaining_improvement / improvement_rate⌉).toNat
          if predicted_iterations > 100 then none
          else some predicted_iterations

/-! ## Agent workflow controller (`src/agent.rs`, `src/errors.rs`)

The controller's effectful collaborators (the `GitWorkflow` trait object)
are embedded as a deterministic oracle `WorkflowModel`: the `k`-th call of
each backend method returns the oracle's value at `k`, and the performed
effects are journalled in a `WorkflowState` so that theorems can speak
about which commits were created and which revert operations were
invoked.  UUIDs, timestamps and tracing are identity-irrelevant to every
claim and are dropped from the embedded records. -/

/-- `RevertPoint` from `src/lib.rs`, restricted to the fields read by the
modelled operations (`commit_hash`, `branch_name`); the file-state
snapshot payload is opaque external data. -/
structure RevertPoint where
  commit_hash : String
  branch_name : String
deriving DecidableEq, Repr

/-- `ActionType` from `src/agent.rs`. -/
inductive ActionType where
  | CommitCreate
  | RevertToPoint
  | SpiralBranch
  | ConvergenceCheck
  | QualityValidation
  | CiCdValidation
  | InfiniteMonkeyIteration
deriving DecidableEq, Repr

/-- `AgentAction` from `src/agent.rs` (without UUID / timestamp, which no
claim observes). -/
structure AgentAction where
  agent_id : String
  action_type : ActionType
  commit_before : Option String
  commit_after : Option String
  success : Bool
deriving DecidableEq, Repr

/-- The error constructors of `GdkError` (`src/errors.rs`) reachable from
the modelled operations: `ConvergenceError` with its diagnostic context,
and `ValidationError` (also the image of the `From<anyhow::Error>`
conversion used by `validate_and_commit`). -/
inductive GdkError where
  | ConvergenceError (reason : String) (iterations : ℕ) (last_score : ℚ)
      (threshold : ℚ)
  | ValidationError (rule : String) (context : String) (details : String)
deriving DecidableEq, Repr

/-- `AgentSession` from `src/agent.rs` (without UUID / timestamps). -/
structure AgentSession where
  agent_id : String
  current_commit : Option String
  revert_stack : List RevertPoint
  convergence_history : List ConvergenceMetrics
  spiral_attempts : ℕ
  max_spiral_attempts : ℕ
deriving DecidableEq, Repr

/-- Deterministic oracle for the external `GitWorkflow` collaborator: the
`k`-th invocation of each backend method observes the oracle at `k`. -/
structure WorkflowModel where
  commit_node : ℕ → String → CommitNode
  analyze : ℕ → ConvergenceMetrics
  revert_point : ℕ → String → RevertPoint
  ci_ok : String → Bool

/-- Journal of the effects performed on the external backend, together
with the per-method invocation counters that drive the oracle. -/
structure WorkflowState where
  commit_count : ℕ
  analyze_count : ℕ
  revert_point_count : ℕ
  commits_created : List CommitNode
  revert_calls : List RevertPoint
  color_update_count : ℕ
deriving DecidableEq, Repr

/-- The mutable state of `AgentWorkflowController` relevant to one acting
agent: that agent's session, the action history, and the backend journal. -/
structure CtrlState where
  session : AgentSession
  action_history : List AgentAction
  wstate : WorkflowState
deriving DecidableEq, Repr

/-- `AgentWorkflowController::log_action` from `src/agent.rs`: builds the
pending action record (success `false`, no after-commit); note the source
does **not** append it to the history — only `complete_action` appends. -/
def log_action (st : CtrlState) (action_type : ActionType) : AgentAction where
  agent_id := st.session.agent_id
  action_type := action_type
  commit_before := st.session.current_commit
  commit_after := none
  success := false

/-- `AgentWorkflowController::complete_action` from `src/agent.rs`:
append the completed copy of a pending action to the history. -/
def complete_action (st : CtrlState) (action : AgentAction) (success : Bool)
    (commit_after : Option String) : CtrlState :=
  { st with action_history := st.action_history
      ++ [{ action with success := success, commit_after := commit_after }] }

/-- The iteration loop of
`AgentWorkflowController::execute_infinite_monkey_workflow`
(`src/agent.rs`, the `loop` after the anchor push): increment the attempt
counter, fail once it exceeds the maximum, otherwise commit, analyze,
record, and either return the commit on success or revert to the anchor
and iterate. -/
def infinite_monkey_loop (m : WorkflowModel) (target_convergence : ℚ)
    (anchor : RevertPoint) (s : CtrlState) :
    CtrlState × Except GdkError CommitNode :=
  let spiral_attempts := s.session.spiral_attempts + 1
  let s1 : CtrlState :=
    { s with session := { s.session with spiral_attempts := spiral_attempts } }
  if spiral_attempts > s.session.max_spiral_attempts then
    (s1, .error (.ConvergenceError
      "Maximum spiral attempts reached without convergence"
      spiral_attempts 0.0 target_convergence))
  else
    let action := log_action s1 .InfiniteMonkeyIteration
    let commit_node := m.commit_node s1.wstate.commit_count
      ("Infinite monkey attempt " ++ toString spiral_attempts)
    let s2 : CtrlState :=
      { s1 with wstate := { s1.wstate with
          commit_count := s1.wstate.commit_count + 1,
          commits_created := s1.wstate.commits_created ++ [commit_node] } }
    let s3 : CtrlState :=
      { s2 with session :=
          { s2.session with current_commit := some commit_node.hash } }
    let convergence := m.analyze s3.wstate.analyze_count
    let s4 : CtrlState :=
      { s3 with wstate := { s3.wstate with
          analyze_count := s3.wstate.analyze_count + 1 } }
    let s5 : CtrlState :=
      { s4 with session := { s4.session with
          convergence_history := s4.session.convergence_history
            ++ [convergence] } }
    let s6 := complete_action s5 action true (some commit_node.hash)
    if convergence.test_pass_rate ≥ target_convergence
        ∧ convergence.is_converged = true then
      (s6, .ok commit_node)
    else
      let s7 : CtrlState :=
        { s6 with wstate := { s6.wstate with
            revert_calls := s6.wstate.revert_calls ++ [anchor] } }
      infinite_monkey_loop m target_convergence anchor s7
termination_by s.session.max_spiral_attempts + 1 - s.session.spiral_attempts
decreasing_by
  simp [complete_action]
  omega

/-- `AgentWorkflowController::execute_infinite_monkey_workflow` from
`src/agent.rs`: create the anchor revert point, push it on the session's
revert stack, and enter the iteration loop. -/
def execute_infinite_monkey_workflow (m : WorkflowModel)
    (target_convergence : ℚ) (st : CtrlState) :
    CtrlState × Except GdkError CommitNode :=
  let initial_revert_point :=
    m.revert_point st.wstate.revert_point_count "infinite_monkey_start"
  let st1 : CtrlState :=
    { st with wstate := { st.wstate with
        revert_point_count := st.wstate.revert_point_count + 1 } }
  let st2 : CtrlState :=
    { st1 with session := { st1.session with
        revert_stack := st1.session.revert_stack ++ [initial_revert_point] } }
  infinite_monkey_loop m target_convergence initial_revert_point st2

/-- `AgentWorkflowController::validate_and_commit` from `src/agent.rs`:
refresh thread colors, create the commit, run the CI/CD gate; on gate
failure complete both action records as failed and return the error
produced by `anyhow!` (which `From<anyhow::Error> for GdkError` in
`src/errors.rs` turns into a `ValidationError` with rule
`anyhow_conversion`); no revert of the created commit is performed. -/
def validate_and_commit (m : WorkflowModel) (st : CtrlState)
    (message : String) : CtrlState × Except GdkError CommitNode :=
  let action := log_action st .QualityValidation
  let st1 : CtrlState :=
    { st with wstate := { st.wstate with
        color_update_count := st.wstate.color_update_count + 1 } }
  let commit_node := m.commit_node st1.wstate.commit_count message
  let st2 : CtrlState :=
    { st1 with wstate := { st1.wstate with
        commit_count := st1.wstate.commit_count + 1,
        commits_created := st1.wstate.commits_created ++ [commit_node] } }
  let ci_validation_action := log_action st2 .CiCdValidation
  let ci_success := m.ci_ok commit_node.hash
  if ci_success = false then
    let st3 := complete_action st2 ci_validation_action false
      (some commit_node.hash)
    let st4 := complete_action st3 action false (some commit_node.hash)
    (st4, .error (.ValidationError "anyhow_conversion"
      ("Converted from anyhow: CI/CD validation failed for commit "
        ++ commit_node.hash)
      ("CI/CD validation failed for commit " ++ commit_node.hash)))
  else
    let st3 : CtrlState :=
      { st2 with session := { st2.session with
          current_commit := some commit_node.hash } }
    let st4 := complete_action st3 ci_validation_action true
      (some commit_node.hash)
    let st5 := complete_action st4 action true (some commit_node.hash)
    (st5, .ok commit_node)

/-- `AgentWorkflowController::create_spiral_checkpoint` from
`src/agent.rs`: create a revert point through the backend, push it onto
the session's revert stack (a Rust `Vec::push`, i.e. append at the back),
and log the completed action. -/
def create_spiral_checkpoint (m : WorkflowModel) (st : CtrlState)
    (reason : String) : CtrlState × Except GdkError RevertPoint :=
  let action := log_action st .RevertToPoint
  let revert_point := m.revert_point st.wstate.revert_point_count reason
  let st1 : CtrlState :=
    { st with wstate := { st.wstate with
        revert_point_count := st.wstate.revert_point_count + 1 } }
  let st2 : CtrlState :=
    { st1 with session := { st1.session with
        revert_stack := st1.session.revert_stack ++ [revert_point] } }
  let st3 := complete_action st2 action true (some revert_point.commit_hash)
  (st3, .ok revert_point)

/-- `AgentWorkflowController::revert_to_last_checkpoint` from
`src/agent.rs`: pop the most recent revert point (a Rust `Vec::pop`, i.e.
remove from the back); on an empty stack return the `validation_error`
naming the agent, leaving the state untouched; otherwise instruct the
backend to revert, record the restored commit as current, and log the
completed action. -/
def revert_to_last_checkpoint (_m : WorkflowModel) (st : CtrlState) :
    CtrlState × Except GdkError Unit :=
  match st.session.revert_stack.getLast? with
  | none =>
    (st, .error (.ValidationError "No revert points available" "revert_stack"
      ("Agent " ++ st.session.agent_id ++ " has no checkpoints to revert to")))
  | some revert_point =>
    let st1 : CtrlState :=
      { st with session := { st.session with
          revert_stack := st.session.revert_stack.dropLast } }
    let action := log_action st1 .RevertToPoint
    let st2 : CtrlState :=
      { st1 with wstate := { st1.wstate with
          revert_calls := st1.wstate.revert_calls ++ [revert_point] } }
    let st3 : CtrlState :=
      { st2 with session := { st2.session with
          current_commit := some revert_point.commit_hash } }
    let st4 := complete_action st3 action true (some revert_point.commit_hash)
    (st4, .ok ())

/-- `AgentWorkflowController::suggest_next_action` from `src/agent.rs`:
a pure function of the session (the Rust method takes `&self` and
performs no mutation): advise from the latest convergence snapshot, and
fall through to the continue advice when no snapshot exists or no
condition fires. -/
def suggest_next_action (session : AgentSession) : String :=
  match session.convergence_history.getLast? with
  | some latest_convergence =>
    if latest_convergence.is_converged then
      "CONVERGED: Consider creating a new spiral branch for further exploration"
    else if latest_convergence.test_pass_rate < 0.5 then
      "REVERT: Test pass rate is low, consider reverting to last checkpoint"
    else if session.spiral_attempts > session.max_spiral_attempts / 2 then
      "CHECKPOINT: Create a revert point before continuing"
    else
      "CONTINUE: Execute next iteration of infinite monkey workflow"
  | none => "CONTINUE: Execute next iteration of infinite monkey workflow"

/-! ## Concrete sample data and oracles used by witnesses -/

/-- A concrete commit record used by witness instantiations. -/
def sampleCommit (hash : String) (health : ℚ) (rate : ℚ) : CommitNode where
  hash := hash
  message := "sample"
  health_score := health
  convergence_metrics :=
    { attempts := 1
      successful_builds := 1
      test_pass_rate := rate
      quality_trend := []
      is_converged := false }

/-- A concrete backend oracle whose convergence analysis always reports a
test-pass rate of 0.3 and no convergence, and whose CI gate always
fails. -/
def sampleModel : WorkflowModel where
  commit_node := fun k msg =>
    sampleCommit ("commit-" ++ toString k ++ ":" ++ msg) 0.5 0.3
  analyze := fun _ =>
    { attempts := 1
      successful_builds := 0
      test_pass_rate := 0.3
      quality_trend := []
      is_converged := false }
  revert_point := fun k reason => { commit_hash := "anchor-" ++ toString k,
                                    branch_name := reason }
  ci_ok := fun _ => false

/-- A concrete convergence snapshot with a low test-pass rate. -/
def sampleLowMetrics : ConvergenceMetrics where
  attempts := 1
  successful_builds := 0
  test_pass_rate := 0.2
  quality_trend := []
  is_converged := false

/-- A session whose last convergence snapshot is `sampleLowMetrics`. -/
def sampleLowSession : AgentSession where
  agent_id := "agent-1"
  current_commit := none
  revert_stack := []
  convergence_history := [sampleLowMetrics]
  spiral_attempts := 0
  max_spiral_attempts := 100

/-- A session with no convergence snapshot whose attempt counter exceeds
half its maximum. -/
def sampleNoHistorySession : AgentSession where
  agent_id := "agent-1"
  current_commit := none
  revert_stack := []
  convergence_history := []
  spiral_attempts := 60
  max_spiral_attempts := 100

/-- A fresh session for agent `agent-1` with an attempt budget of 1. -/
def sampleSession : AgentSession where
  agent_id := "agent-1"
  current_commit := none
  revert_stack := []
  convergence_history := []
  spiral_attempts := 0
  max_spiral_attempts := 1

/-- The empty backend journal. -/
def emptyWorkflowState : WorkflowState where
  commit_count := 0
  analyze_count := 0
  revert_point_count := 0
  commits_created := []
  revert_calls := []
  color_update_count := 0

/-- A fresh controller state for `agent-1`. -/
def sampleCtrlState : CtrlState where
  session := sampleSession
  action_history := []
  wstate := emptyWorkflowState

/-! ## Theorems for the claims -/

/-- C4: for every quadruple of scores, `ThreadColor::from_scores` returns
the color determined solely by the unweighted mean with fixed breakpoints
0.9 / 0.7 / 0.5 / 0.3, each boundary inclusive upward (mean 0.9 is Green,
0.7 is LightGreen, 0.5 is Yellow, 0.3 is Orange). -/
theorem from_scores_breakpoints_spec
    (lint type_check test_coverage functionality : ℚ) :
    ((lint + type_check + test_coverage + functionality) / 4 ≥ 0.9 →
      ThreadColor.from_scores lint type_check test_coverage functionality
        = .Green)
    ∧ (0.7 ≤ (lint + type_check + test_coverage + functionality) / 4 ∧
        (lint + type_check + test_coverage + functionality) / 4 < 0.9 →
      ThreadColor.from_scores lint type_check test_coverage functionality
        = .LightGreen)
    ∧ (0.5 ≤ (lint + type_check + test_coverage + functionality) / 4 ∧
        (lint + type_check + test_coverage + functionality) / 4 < 0.7 →
      ThreadColor.from_scores lint type_check test_coverage functionality
        = .Yellow)
    ∧ (0.3 ≤ (lint + type_check + test_coverage + functionality) / 4 ∧
        (lint + type_check + test_coverage + functionality) / 4 < 0.5 →
      ThreadColor.from_scores lint type_check test_coverage functionality
        = .Orange)
    ∧ ((lint + type_check + test_coverage + functionality) / 4 < 0.3 →
      ThreadColor.from_scores lint type_check test_coverage functionality
        = .Red) := by
  unfold ThreadColor.from_scores
  refine ⟨fun h => ?_, fun h => ?_, fun h => ?_, fun h => ?_, fun h => ?_⟩ <;>
    dsimp only <;>
    split_ifs <;>
      first
        | rfl
        | (exfalso; linarith [h])

/-- C4 witness: applying the breakpoint theorem at the concrete quadruple
(0.9, 0.9, 0.9, 0.9) whose mean is exactly the 0.9 boundary. -/
theorem from_scores_breakpoints_spec_witness :
    ThreadColor.from_scores 0.9 0.9 0.9 0.9 = .Green :=
  (from_scores_breakpoints_spec 0.9 0.9 0.9 0.9).1 (by norm_num)

/-- C5: classification is monotonic — raising every component score never
lowers the discrete score of the resulting color — and `to_score` only
takes the five fixed values 1.0, 0.8, 0.6, 0.4, 0.2. -/
theorem classification_monotonicity_spec :
    (∀ l1 t1 c1 f1 l2 t2 c2 f2 : ℚ, l1 ≤ l2 → t1 ≤ t2 → c1 ≤ c2 → f1 ≤ f2 →
      (ThreadColor.from_scores l1 t1 c1 f1).to_score
        ≤ (ThreadColor.from_scores l2 t2 c2 f2).to_score)
    ∧ (∀ color : ThreadColor,
        color.to_score = 1.0 ∨ color.to_score = 0.8 ∨ color.to_score = 0.6
          ∨ color.to_score = 0.4 ∨ color.to_score = 0.2) := by
  constructor
  · intro l1 t1 c1 f1 l2 t2 c2 f2 hl ht hc hf
    have hm : (l1 + t1 + c1 + f1) / 4 ≤ (l2 + t2 + c2 + f2) / 4 := by linarith
    unfold ThreadColor.from_scores
    dsimp only
    split_ifs <;> simp only [ThreadColor.to_score] <;> linarith
  · intro color
    cases color <;> simp [ThreadColor.to_score]

/-- C5 witness: monotonicity applied at a concrete pair of quadruples. -/
theorem classification_monotonicity_spec_witness :
    (ThreadColor.from_scores 0.2 0.4 0.4 0.4).to_score
      ≤ (ThreadColor.from_scores 0.9 1 0.95 1).to_score :=
  classification_monotonicity_spec.1 0.2 0.4 0.4 0.4 0.9 1 0.95 1
    (by norm_num) (by norm_num) (by norm_num) (by norm_num)

/-- C10: under the default `ColorRules` (all four weights 0.25 and
thresholds 0.9 / 0.7 / 0.5 / 0.3), `ThreadManager::calculate_thread_color`
agrees with `ThreadColor::from_scores` on every quadruple: the weighted
sum with equal weights 0.25 coincides with the mean divided by 4. -/
theorem calculate_thread_color_refines_from_scores
    (lint type_check test_coverage functionality : ℚ) :
    calculate_thread_color ColorRules.default
        lint type_check test_coverage functionality
      = ThreadColor.from_scores lint type_check test_coverage functionality := by
  have h : lint * 0.25 + type_check * 0.25 + test_coverage * 0.25
      + functionality * 0.25
      = (lint + type_check + test_coverage + functionality) / 4 := by ring
  unfold calculate_thread_color ThreadColor.from_scores ColorRules.default
  dsimp only
  rw [h]

/-- C1: `determine_convergence` computes the confidence score as the fixed
weighted sum of the five factors (so all-ones give 1.0, all-zeros give
0.0, and a lone quality-stability of 1 gives 0.30), and reports
convergence exactly when the confidence reaches the threshold, quality
stability exceeds 0.8, and the thread-health ratio reaches the configured
minimum; under the default configuration a zero thread-health ratio
forces non-convergence whatever the other factors. -/
theorem determine_convergence_spec :
    (∀ (a : ConvergenceAnalyzer) (f : ConvergenceFactors),
      (a.determine_convergence f).2
          = 0.30 * f.quality_stability + 0.25 * f.thread_health_ratio
            + 0.20 * f.test_pass_consistency + 0.15 * f.build_success_rate
            + 0.10 * f.trend_improvement
      ∧ ((a.determine_convergence f).1 = true ↔
          (a.determine_convergence f).2 ≥ a.convergence_threshold
          ∧ f.quality_stability > 0.8
          ∧ f.thread_health_ratio ≥ a.min_green_threads_ratio))
    ∧ (ConvergenceAnalyzer.default.determine_convergence ⟨1, 1, 1, 1, 1⟩).2 = 1.0
    ∧ (ConvergenceAnalyzer.default.determine_convergence ⟨0, 0, 0, 0, 0⟩).2 = 0.0
    ∧ (ConvergenceAnalyzer.default.determine_convergence ⟨1, 0, 0, 0, 0⟩).2 = 0.30
    ∧ (∀ f : ConvergenceFactors, f.thread_health_ratio = 0 →
        (ConvergenceAnalyzer.default.determine_convergence f).1 = false) := by
  refine ⟨fun a f => ⟨?_, ?_⟩, ?_, ?_, ?_, fun f hf => ?_⟩
  · simp only [ConvergenceAnalyzer.determine_convergence]
    ring
  · simp only [ConvergenceAnalyzer.determine_convergence, Bool.and_eq_true,
      decide_eq_true_eq, ge_iff_le, gt_iff_lt]
    tauto
  · norm_num [ConvergenceAnalyzer.determine_convergence]
  · norm_num [ConvergenceAnalyzer.determine_convergence]
  · norm_num [ConvergenceAnalyzer.determine_convergence]
  · simp only [ConvergenceAnalyzer.determine_convergence,
      ConvergenceAnalyzer.default, hf, Bool.and_eq_false_iff]
    norm_num

/-- C1 witness: the default-configuration gating applied at the concrete
factor vector with zero thread-health ratio and all other factors 1. -/
theorem determine_convergence_spec_witness :
    (ConvergenceAnalyzer.default.determine_convergence ⟨1, 0, 1, 1, 1⟩).1
      = false :=
  determine_convergence_spec.2.2.2.2 ⟨1, 0, 1, 1, 1⟩ rfl

/-- C6: `calculate_quality_stability` is 0 when fewer than 3 revisions
fall in the stability window; otherwise, with `m` the mean and `v` the
population variance of the health scores of the last `stability_window`
revisions, it is `1 - min (v / variance_threshold) 1` when
`v ≤ variance_threshold` and `m ≥ convergence_threshold`, and 0 in every
other case.  (The hypothesis `0 < variance_threshold` is the regime in
which the exact rational model coincides with the `f64` division of the
source; the default configuration has `variance_threshold = 0.02`.) -/
theorem calculate_quality_stability_spec (a : ConvergenceAnalyzer)
    (commit_history : List CommitNode) (_hvt : 0 < a.variance_threshold) :
    ((commit_history.reverse.take a.stability_window).length < 3 →
      a.calculate_quality_stability commit_history = 0)
    ∧ (3 ≤ (commit_history.reverse.take a.stability_window).length →
      let scores :=
        (commit_history.reverse.take a.stability_window).map (·.health_score)
      let m := scores.sum / (scores.length : ℚ)
      let v := (scores.map (fun score => (score - m) ^ 2)).sum
        / (scores.length : ℚ)
      (v ≤ a.variance_threshold ∧ m ≥ a.convergence_threshold →
        a.calculate_quality_stability commit_history
          = 1 - min (v / a.variance_threshold) 1)
      ∧ (¬(v ≤ a.variance_threshold ∧ m ≥ a.convergence_threshold) →
        a.calculate_quality_stability commit_history = 0)) := by
  unfold ConvergenceAnalyzer.calculate_quality_stability
  dsimp only
  refine ⟨fun h => ?_, fun h3 => ⟨fun hcond => ?_, fun hcond => ?_⟩⟩
  · rw [if_pos h]
  · rw [if_neg (not_lt.mpr h3), if_pos hcond]
  · rw [if_neg (not_lt.mpr h3), if_neg hcond]

/-- C6 witness: the default analyzer on three commits of health 0.9 —
variance 0 and mean 0.9 pass both gates, giving stability 1. -/
theorem calculate_quality_stability_spec_witness :
    ConvergenceAnalyzer.default.calculate_quality_stability
      [sampleCommit "a" 0.9 1, sampleCommit "b" 0.9 1, sampleCommit "c" 0.9 1]
      = 1 := by
  have h := (calculate_quality_stability_spec ConvergenceAnalyzer.default
    [sampleCommit "a" 0.9 1, sampleCommit "b" 0.9 1, sampleCommit "c" 0.9 1]
    (by norm_num [ConvergenceAnalyzer.default])).2
    (by simp [ConvergenceAnalyzer.default])
  rw [h.1 (by norm_num [sampleCommit, ConvergenceAnalyzer.default])]
  norm_num [sampleCommit, ConvergenceAnalyzer.default]

/-- C7: `predict_convergence_time` returns `none` with fewer than 3
health-score points from the last 10 revisions; otherwise, with
`rate = (newest - oldest) / count` over those points (index 0 newest), it
returns `none` when `rate ≤ 0`, `some 0` when
`convergence_threshold - newest ≤ 0`, and otherwise
`ceil ((convergence_threshold - newest) / rate)`, turned into `none` when
that result exceeds 100 iterations. -/
theorem predict_convergence_time_spec (a : ConvergenceAnalyzer)
    (commit_history : List CommitNode) :
    let recent_scores := (commit_history.reverse.take 10).map (·.health_score)
    (recent_scores.length < 3 →
      a.predict_convergence_time commit_history = none)
    ∧ (3 ≤ recent_scores.length →
      let current_score := recent_scores.headI
      let oldest_score := recent_scores.getLastD 0
      let rate := (current_score - oldest_score) / (recent_scores.length : ℚ)
      (rate ≤ 0 → a.predict_convergence_time commit_history = none)
      ∧ (0 < rate → a.convergence_threshold - current_score ≤ 0 →
          a.predict_convergence_time commit_history = some 0)
      ∧ (0 < rate → 0 < a.convergence_threshold - current_score →
          a.predict_convergence_time commit_history =
            if (⌈(a.convergence_threshold - current_score) / rate⌉).toNat > 100
            then none
            else some (⌈(a.convergence_threshold - current_score)
              / rate⌉).toNat)) := by
  have hlen : ((commit_history.reverse.take 10).map
      (·.health_score)).length = min 10 commit_history.length := by
    simp
  dsimp only
  refine ⟨fun h => ?_, fun h3 => ⟨fun hr => ?_, fun hr hrem => ?_,
    fun hr hrem => ?_⟩⟩
  · have hh : commit_history.length < 3 := by omega
    unfold ConvergenceAnalyzer.predict_convergence_time
    rw [if_pos hh]
  · have hh : ¬commit_history.length < 3 := by omega
    unfold ConvergenceAnalyzer.predict_convergence_time
    rw [if_neg hh]
    try dsimp only
    rw [if_neg (by omega : ¬((commit_history.reverse.take 10).map
      (·.health_score)).length < 3)]
    try dsimp only
    rw [if_pos hr]
  · have hh : ¬commit_history.length < 3 := by omega
    unfold ConvergenceAnalyzer.predict_convergence_time
    rw [if_neg hh]
    try dsimp only
    rw [if_neg (by omega : ¬((commit_history.reverse.take 10).map
      (·.health_score)).length < 3)]
    try dsimp only
    rw [if_neg (not_le.mpr hr), if_pos hrem]
  · have hh : ¬commit_history.length < 3 := by omega
    unfold ConvergenceAnalyzer.predict_convergence_time
    rw [if_neg hh]
    try dsimp only
    rw [if_neg (by omega : ¬((commit_history.reverse.take 10).map
      (·.health_score)).length < 3)]
    try dsimp only
    rw [if_neg (not_le.mpr hr), if_neg (not_le.mpr hrem)]

/-- C7 witness: three commits with improving health 0.0, 0.2, 0.4 under
the default analyzer: rate 2/15, remaining improvement 0.4, prediction
`ceil 3 = 3 ≤ 100`, so the result is `some 3`. -/
theorem predict_convergence_time_spec_witness :
    ConvergenceAnalyzer.default.predict_convergence_time
      [sampleCommit "a" 0.0 1, sampleCommit "b" 0.2 1, sampleCommit "c" 0.4 1]
      = some 3 := by
  have h := ((predict_convergence_time_spec ConvergenceAnalyzer.default
    [sampleCommit "a" 0.0 1, sampleCommit "b" 0.2 1,
     sampleCommit "c" 0.4 1]).2
    (by simp)).2.2
    (by norm_num [sampleCommit]) (by norm_num [sampleCommit,
      ConvergenceAnalyzer.default])
  rw [h]
  norm_num [sampleCommit, ConvergenceAnalyzer.default]
  rfl

/-- C9 counterexample: on a session with no convergence snapshot whose
attempt counter (60) exceeds half its maximum (100), the code returns the
continue suggestion, not the checkpoint suggestion the claim's condition
chain prescribes — the attempt-counter check only runs when a last
snapshot exists. -/
theorem suggest_next_action_counterexample :
    2 * sampleNoHistorySession.spiral_attempts
        > sampleNoHistorySession.max_spiral_attempts
    ∧ sampleNoHistorySession.convergence_history = []
    ∧ suggest_next_action sampleNoHistorySession
        = "CONTINUE: Execute next iteration of infinite monkey workflow"
    ∧ suggest_next_action sampleNoHistorySession
        ≠ "CHECKPOINT: Create a revert point before continuing" := by
  exact ⟨by decide, rfl, rfl, by decide⟩

/-- C9 (amended): `suggest_next_action` is a pure function of the session
state; on a session whose convergence history has a last snapshot it
suggests branching when that snapshot is converged, else reverting when
its test-pass rate is below 0.5, else checkpointing when the attempt
counter exceeds half the configured maximum (`2 · attempts > max`), and
else continuing the loop; a session with no snapshot always receives the
continue suggestion, regardless of its attempt counter. -/
theorem suggest_next_action_spec (session : AgentSession) :
    (∀ latest : ConvergenceMetrics,
      session.convergence_history.getLast? = some latest →
      suggest_next_action session =
        if latest.is_converged then
          "CONVERGED: Consider creating a new spiral branch for further exploration"
        else if latest.test_pass_rate < 0.5 then
          "REVERT: Test pass rate is low, consider reverting to last checkpoint"
        else if 2 * session.spiral_attempts > session.max_spiral_attempts then
          "CHECKPOINT: Create a revert point before continuing"
        else
          "CONTINUE: Execute next iteration of infinite monkey workflow")
    ∧ (session.convergence_history.getLast? = none →
      suggest_next_action session
        = "CONTINUE: Execute next iteration of infinite monkey workflow") := by
  have hdiv : session.spiral_attempts > session.max_spiral_attempts / 2
      ↔ 2 * session.spiral_attempts > session.max_spiral_attempts := by
    omega
  constructor
  · intro latest hlast
    unfold suggest_next_action
    rw [hlast]
    by_cases hc : latest.is_converged
    · simp [hc]
    · by_cases hr : latest.test_pass_rate < 0.5
      · simp [hc, hr]
      · by_cases ha : session.spiral_attempts > session.max_spiral_attempts / 2
        · simp [hc, hr, ha, hdiv.mp ha]
        · simp [hc, hr, ha, (not_iff_not.mpr hdiv).mp ha]
  · intro hnone
    unfold suggest_next_action
    rw [hnone]

/-- C9 witness: a session whose last snapshot has low test-pass rate gets
the revert suggestion. -/
theorem suggest_next_action_spec_witness :
    suggest_next_action sampleLowSession
      = "REVERT: Test pass rate is low, consider reverting to last checkpoint" := by
  rw [(suggest_next_action_spec sampleLowSession).1 sampleLowMetrics rfl]
  norm_num [sampleLowMetrics]

/-- C3: when the CI gate rejects the commit created by
`validate_and_commit`, the call returns an error, the action history
gains exactly the failed CI-gate record and the failed overall
quality-validation record (both with `success = false` and carrying the
created commit), the created commit remains in the backend's created-commit
journal, and no revert operation is invoked by the call. -/
theorem validate_and_commit_gate_failure_spec (m : WorkflowModel)
    (st : CtrlState) (message : String)
    (hci : m.ci_ok (m.commit_node st.wstate.commit_count message).hash
      = false) :
    (∃ e, (validate_and_commit m st message).2 = Except.error e)
    ∧ (validate_and_commit m st message).1.action_history
        = st.action_history
          ++ [⟨st.session.agent_id, .CiCdValidation,
                st.session.current_commit,
                some (m.commit_node st.wstate.commit_count message).hash,
                false⟩,
              ⟨st.session.agent_id, .QualityValidation,
                st.session.current_commit,
                some (m.commit_node st.wstate.commit_count message).hash,
                false⟩]
    ∧ (validate_and_commit m st message).1.wstate.commits_created
        = st.wstate.commits_created
          ++ [m.commit_node st.wstate.commit_count message]
    ∧ (validate_and_commit m st message).1.wstate.revert_calls
        = st.wstate.revert_calls := by
  unfold validate_and_commit log_action complete_action
  dsimp only
  rw [if_pos hci]
  refine ⟨⟨_, rfl⟩, by simp, by simp, by simp⟩

/-- C3 witness: under the always-failing CI oracle, a fresh controller
state produces an error while journalling no revert call. -/
theorem validate_and_commit_gate_failure_spec_witness :
    (∃ e, (validate_and_commit sampleModel sampleCtrlState "msg").2
      = Except.error e)
    ∧ (validate_and_commit sampleModel sampleCtrlState "msg").1.wstate.revert_calls
      = [] := by
  have h := validate_and_commit_gate_failure_spec sampleModel sampleCtrlState
    "msg" rfl
  exact ⟨h.1, h.2.2.2.trans rfl⟩

/-- C8 counterexample: after pushing three checkpoints and reverting
twice, the stack still holds the first checkpoint — it is not empty — and
a third `revert_to_last_checkpoint` succeeds (it is not an error), contrary
to the claim that the third invocation hits an empty stack and fails. -/
theorem checkpoint_lifo_counterexample :
    ((revert_to_last_checkpoint sampleModel
        (revert_to_last_checkpoint sampleModel
          (revert_to_last_checkpoint sampleModel
            (create_spiral_checkpoint sampleModel
              (create_spiral_checkpoint sampleModel
                (create_spiral_checkpoint sampleModel sampleCtrlState
                  "r1").1 "r2").1 "r3").1).1).1).2 = Except.ok ())
    ∧ (revert_to_last_checkpoint sampleModel
        (revert_to_last_checkpoint sampleModel
          (create_spiral_checkpoint sampleModel
            (create_spiral_checkpoint sampleModel
              (create_spiral_checkpoint sampleModel sampleCtrlState
                "r1").1 "r2").1 "r3").1).1).1.session.revert_stack ≠ [] := by
  exact ⟨rfl, by simp [revert_to_last_checkpoint, create_spiral_checkpoint,
    complete_action, sampleCtrlState, sampleSession, emptyWorkflowState]⟩

/-- C8 (amended): on a session with an empty checkpoint stack, pushing
checkpoints A, B, C and reverting repeatedly restores C, then B, then A,
each revert removing the restored checkpoint from the stack and recording
it as the current commit; the fourth invocation, on the now-empty stack,
returns the validation error naming the agent and stating that no
checkpoints exist, and leaves the controller state unchanged. -/
theorem checkpoint_lifo_spec (m : WorkflowModel) (st : CtrlState)
    (r1 r2 r3 : String) (hempty : st.session.revert_stack = []) :
    let A := m.revert_point st.wstate.revert_point_count r1
    let c1 := create_spiral_checkpoint m st r1
    let B := m.revert_point c1.1.wstate.revert_point_count r2
    let c2 := create_spiral_checkpoint m c1.1 r2
    let C := m.revert_point c2.1.wstate.revert_point_count r3
    let c3 := create_spiral_checkpoint m c2.1 r3
    let p1 := revert_to_last_checkpoint m c3.1
    let p2 := revert_to_last_checkpoint m p1.1
    let p3 := revert_to_last_checkpoint m p2.1
    let p4 := revert_to_last_checkpoint m p3.1
    c1.2 = .ok A ∧ c2.2 = .ok B ∧ c3.2 = .ok C
    ∧ c3.1.session.revert_stack = [A, B, C]
    ∧ p1.2 = .ok ()
    ∧ p1.1.wstate.revert_calls = c3.1.wstate.revert_calls ++ [C]
    ∧ p1.1.session.revert_stack = [A, B]
    ∧ p1.1.session.current_commit = some C.commit_hash
    ∧ p2.2 = .ok ()
    ∧ p2.1.wstate.revert_calls = p1.1.wstate.revert_calls ++ [B]
    ∧ p2.1.session.revert_stack = [A]
    ∧ p2.1.session.current_commit = some B.commit_hash
    ∧ p3.2 = .ok ()
    ∧ p3.1.wstate.revert_calls = p2.1.wstate.revert_calls ++ [A]
    ∧ p3.1.session.revert_stack = []
    ∧ p3.1.session.current_commit = some A.commit_hash
    ∧ p4.2 = .error (.ValidationError "No revert points available"
        "revert_stack"
        ("Agent " ++ st.session.agent_id ++ " has no checkpoints to revert to"))
    ∧ p4.1 = p3.1 := by
  obtain ⟨⟨aid, cc, stack, hist, sa, ms⟩, ah, ws⟩ := st
  simp only [AgentSession.revert_stack] at hempty
  subst hempty
  dsimp only
  simp [create_spiral_checkpoint, revert_to_last_checkpoint, log_action,
    complete_action, List.getLast?, List.dropLast]

/-- C8 witness: on the concrete fresh state, the fourth revert fails with
the stack-empty validation error naming agent `agent-1`. -/
theorem checkpoint_lifo_spec_witness :
    (revert_to_last_checkpoint sampleModel
      (revert_to_last_checkpoint sampleModel
        (revert_to_last_checkpoint sampleModel
          (revert_to_last_checkpoint sampleModel
            (create_spiral_checkpoint sampleModel
              (create_spiral_checkpoint sampleModel
                (create_spiral_checkpoint sampleModel sampleCtrlState
                  "r1").1 "r2").1 "r3").1).1).1).1).2
      = Except.error (GdkError.ValidationError "No revert points available"
          "revert_stack"
          ("Agent " ++ "agent-1" ++ " has no checkpoints to revert to")) := by
  have h := checkpoint_lifo_spec sampleModel sampleCtrlState "r1" "r2" "r3" rfl
  exact h.2.2.2.2.2.2.2.2.2.2.2.2.2.2.2.2.1

/-- Helper for C2: when the analyzer never satisfies the success
condition, the iteration loop runs until the attempt counter passes the
maximum, returns the convergence error with the constant score 0.0, sets
the counter to `max + 1`, and never touches the revert stack. -/
lemma infinite_monkey_loop_exhausts (m : WorkflowModel) (target : ℚ)
    (anchor : RevertPoint)
    (hnever : ∀ k, ¬((m.analyze k).test_pass_rate ≥ target
      ∧ (m.analyze k).is_converged = true)) :
    ∀ fuel s,
      s.session.max_spiral_attempts - s.session.spiral_attempts = fuel →
      s.session.spiral_attempts ≤ s.session.max_spiral_attempts →
      (infinite_monkey_loop m target anchor s).2
          = .error (.ConvergenceError
              "Maximum spiral attempts reached without convergence"
              (s.session.max_spiral_attempts + 1) 0.0 target)
      ∧ (infinite_monkey_loop m target anchor s).1.session.spiral_attempts
          = s.session.max_spiral_attempts + 1
      ∧ (infinite_monkey_loop m target anchor s).1.session.revert_stack
          = s.session.revert_stack := by
  intro fuel
  induction fuel with
  | zero =>
    intro s hf hle
    have hmax : s.session.spiral_attempts = s.session.max_spiral_attempts := by
      omega
    rw [infinite_monkey_loop]
    rw [if_pos (by omega :
      s.session.spiral_attempts + 1 > s.session.max_spiral_attempts)]
    refine ⟨?_, ?_, ?_⟩ <;> simp [hmax]
  | succ n ih =>
    intro s hf hle
    rw [infinite_monkey_loop]
    rw [if_neg (by omega :
      ¬s.session.spiral_attempts + 1 > s.session.max_spiral_attempts)]
    dsimp only
    rw [if_neg (hnever s.wstate.analyze_count)]
    exact ih _ (by dsimp only [complete_action]; omega)
      (by dsimp only [complete_action]; omega)

/-- C2 (amended): on a fresh session with attempt budget N and an
analyzer that never satisfies the success condition
(`test_pass_rate ≥ target` and `is_converged`),
`execute_infinite_monkey_workflow` fails after exactly N + 1 increments of
the session's attempt counter with a convergence error carrying the
attempt count N + 1, the constant score 0.0 (the source passes a literal
`0.0` regardless of any observed score), and the target; the anchor
checkpoint pushed at loop start is still on the session's revert stack
after the failure. -/
theorem execute_infinite_monkey_exhaustion_spec (m : WorkflowModel)
    (target : ℚ) (st : CtrlState)
    (hnever : ∀ k, ¬((m.analyze k).test_pass_rate ≥ target
      ∧ (m.analyze k).is_converged = true))
    (hzero : st.session.spiral_attempts = 0) :
    (execute_infinite_monkey_workflow m target st).2
        = .error (.ConvergenceError
            "Maximum spiral attempts reached without convergence"
            (st.session.max_spiral_attempts + 1) 0.0 target)
    ∧ (execute_infinite_monkey_workflow m target st).1.session.spiral_attempts
        = st.session.max_spiral_attempts + 1
    ∧ m.revert_point st.wstate.revert_point_count "infinite_monkey_start"
        ∈ (execute_infinite_monkey_workflow m target st).1.session.revert_stack := by
  unfold execute_infinite_monkey_workflow
  dsimp only
  have h := infinite_monkey_loop_exhausts m target
    (m.revert_point st.wstate.revert_point_count "infinite_monkey_start")
    hnever (st.session.max_spiral_attempts - st.session.spiral_attempts)
    { st with
      session := { st.session with
        revert_stack := st.session.revert_stack
          ++ [m.revert_point st.wstate.revert_point_count
                "infinite_monkey_start"] }
      wstate := { st.wstate with
        revert_point_count := st.wstate.revert_point_count + 1 } }
    rfl
    (show st.session.spiral_attempts ≤ st.session.max_spiral_attempts by omega)
  refine ⟨h.1, h.2.1, ?_⟩
  rw [h.2.2]
  simp

/-- C2 witness: the sample oracle scores 0.3 and never converges; with an
attempt budget of 1 the workflow fails with attempt count 2, score 0.0 and
target 0.8. -/
theorem execute_infinite_monkey_exhaustion_spec_witness :
    (execute_infinite_monkey_workflow sampleModel 0.8 sampleCtrlState).2
        = .error (.ConvergenceError
            "Maximum spiral attempts reached without convergence" 2 0.0 0.8) :=
  (execute_infinite_monkey_exhaustion_spec sampleModel 0.8 sampleCtrlState
    (by intro k; norm_num [sampleModel]) rfl).1

/-- C2 counterexample: with budget 1 and the sample oracle, one iteration
observes the score 0.3 (it ends up in the session's convergence history),
yet the convergence error reports the score 0.0 — not the last observed
score — refuting the claim that the error carries the last observed score
when one was observed. -/
theorem execute_infinite_monkey_counterexample :
    (execute_infinite_monkey_workflow sampleModel 0.8 sampleCtrlState).2
        = .error (.ConvergenceError
            "Maximum spiral attempts reached without convergence" 2 0.0 0.8)
    ∧ (execute_infinite_monkey_workflow sampleModel 0.8
          sampleCtrlState).1.session.convergence_history
        = [sampleModel.analyze 0]
    ∧ (sampleModel.analyze 0).test_pass_rate = 0.3
    ∧ (0.0 : ℚ) ≠ 0.3 := by
  unfold execute_infinite_monkey_workflow
  rw [infinite_monkey_loop]
  norm_num [sampleCtrlState, sampleSession, emptyWorkflowState, sampleModel,
    sampleCommit, log_action, complete_action]
  rw [infinite_monkey_loop]
  norm_num [sampleCtrlState, sampleSession, emptyWorkflowState, sampleModel,
    sampleCommit, log_action, complete_action]
